import Mathlib

/-!
Shallow embedding of src/function_app.py, an Azure Functions HTTP service
exposing three endpoints: the root liveness check, /health, and /search.

Modelling conventions:
- Python/JSON values that flow through the handlers are modelled by `JVal`
  (null, booleans, integers, floats, strings, arrays, objects).  A JSON
  float is modelled by the observations the handlers can make of it:
  whether it is zero, its truncation toward zero when finite, or being
  infinite or NaN (json.loads turns an overflowing literal such as 1e400
  into inf).  Floating-point scores returned by the database are carried
  opaquely as `JVal`.
- The external collaborators (the pickled vectorizer and the Qdrant client)
  are fields of an `Env` record.  The vectorizer transform step
  (vectorizer.transform([query]) followed by tocoo and the SparseVector
  construction, lines 50-56) is collapsed into one function
  `JVal → Except String SparseVector`; a raised Python exception is the
  `.error` case carrying str(e).  Likewise client.search (lines 59-66) is a
  function returning `Except String (List SearchResult)`, and
  client.get_collections (line 108) an `Except String Unit`.
- A raised exception anywhere is an `Except.error` carrying the string
  representation of the exception; the outer try/except of tfidf_search
  (lines 138, 201-208) is the final `match` converting it to a 500 response.
-/

/-- A Python float as observed by the handlers: zero (0.0 or -0.0), a
non-zero finite value carrying int(f) — its truncation toward zero, an
infinity of either sign, or NaN.  Truthiness and int() are the only
operations the handlers apply to a float, and both factor through these
four cases. -/
inductive PyFloat where
  | zero : PyFloat
  | nonzero : Int → PyFloat
  | inf : PyFloat
  | nan : PyFloat

/-- JSON-like values exchanged by the handlers; sufficient for every value
the handlers inspect (json.loads yields exactly None, bool, int, float,
str, list and dict). -/
inductive JVal where
  | jnull : JVal
  | jbool : Bool → JVal
  | jint : Int → JVal
  | jfloat : PyFloat → JVal
  | jstr : String → JVal
  | jarr : List JVal → JVal
  | jobj : List (String × JVal) → JVal

/-- A Qdrant search hit: lines 179-186 read exactly the fields id, score and
payload.  All three are opaque pass-through data here. -/
structure SearchResult where
  id : JVal
  score : JVal
  payload : JVal

/-- The sparse TF-IDF vector built at lines 53-56 from the coo matrix:
integer feature indices and the matching weights (weights are floats in the
source, carried opaquely). -/
structure SparseVector where
  indices : List Int
  values : List JVal

/-- HTTP methods the /search route accepts (line 131). -/
inductive Method where
  | get : Method
  | post : Method

/-- An incoming HTTP request: the method, the URL query parameters
(req.params), and the result of req.get_json() — `none` models a body that
is not valid JSON (the ValueError branch of lines 150-153), `some v` a body
that parsed to the JSON value `v`. -/
structure HttpRequest where
  method : Method
  params : List (String × String)
  body : Option JVal

/-- An outgoing response: status code and JSON body (the json.dumps
argument; mimetype is constant and not modelled). -/
structure HttpResponse where
  status : Nat
  body : JVal

/-- Process-wide state fixed at cold start (lines 11-36) plus the external
collaborators: the optionally loaded vectorizer (its transform step), the
Qdrant client search call, the configured collection and URL, and the
client.get_collections liveness probe used by /health. -/
structure Env where
  vectorizer : Option (JVal → Except String SparseVector)
  dbSearch : String → SparseVector → Int → Except String (List SearchResult)
  collection : String
  qdrantUrl : String
  getCollections : Except String Unit

/-- Dictionary-style lookup, req.params.get(key) (lines 147-148). -/
def getParam (params : List (String × String)) (key : String) : Option String :=
  List.lookup key params

/-- body.get(key) (lines 154-155): on a JSON object, the value or None when
absent; on any other value an AttributeError is raised (modelled as the
string the outer handler would serialize). -/
def jvalGet (v : JVal) (key : String) : Except String JVal :=
  match v with
  | .jobj kvs => .ok ((List.lookup key kvs).getD .jnull)
  | _ => .error "AttributeError: object has no attribute get"

/-- Python truthiness of the values a JSON body can hold, used by the
`if not query` test at line 157 (non-zero floats, infinities and NaN are
all truthy). -/
def truthy : JVal → Bool
  | .jnull => false
  | .jbool b => b
  | .jint n => n != 0
  | .jfloat .zero => false
  | .jfloat (.nonzero _) => true
  | .jfloat .inf => true
  | .jfloat .nan => true
  | .jstr s => s != ""
  | .jarr xs => !xs.isEmpty
  | .jobj kvs => !kvs.isEmpty

/-- Whitespace stripped by Python int() on string input: the Unicode
whitespace set of Py_UNICODE_ISSPACE (ASCII control whitespace, NEL, NBSP,
Ogham space mark, the U+2000 spaces, line and paragraph separators, narrow
no-break space, medium mathematical space, ideographic space). -/
def pyWs (c : Char) : Bool :=
  (0x09 ≤ c.toNat && c.toNat ≤ 0x0D) ||
  (0x1C ≤ c.toNat && c.toNat ≤ 0x20) ||
  c.toNat = 0x85 || c.toNat = 0xA0 || c.toNat = 0x1680 ||
  (0x2000 ≤ c.toNat && c.toNat ≤ 0x200A) ||
  c.toNat = 0x2028 || c.toNat = 0x2029 || c.toNat = 0x202F ||
  c.toNat = 0x205F || c.toNat = 0x3000

/-- Strip leading and trailing Python whitespace from a character list. -/
def trimWs (cs : List Char) : List Char :=
  List.reverse (List.dropWhile pyWs (List.reverse (List.dropWhile pyWs cs)))

/-- First codepoints of the Unicode Nd decimal-digit blocks (Unicode 15.0),
the digits CPython int() accepts: each block is ten consecutive codepoints
for the digits 0 to 9. -/
def ndBases : List Nat :=
  [0x30, 0x660, 0x6F0, 0x7C0, 0x966, 0x9E6, 0xA66, 0xAE6, 0xB66, 0xBE6,
   0xC66, 0xCE6, 0xD66, 0xDE6, 0xE50, 0xED0, 0xF20, 0x1040, 0x1090,
   0x17E0, 0x1810, 0x1946, 0x19D0, 0x1A80, 0x1A90, 0x1B50, 0x1BB0,
   0x1C40, 0x1C50, 0xA620, 0xA8D0, 0xA900, 0xA9D0, 0xA9F0, 0xAA50,
   0xABF0, 0xFF10, 0x104A0, 0x10D30, 0x11066, 0x110F0, 0x11136, 0x111D0,
   0x112F0, 0x11450, 0x114D0, 0x11650, 0x116C0, 0x11730, 0x118E0,
   0x11950, 0x11C50, 0x11D50, 0x11DA0, 0x11F50, 0x16A60, 0x16AC0,
   0x16B50, 0x1D7CE, 0x1D7D8, 0x1D7E2, 0x1D7EC, 0x1D7F6, 0x1E140,
   0x1E2F0, 0x1E4F0, 0x1E950, 0x1FBF0]

/-- The decimal value of a Unicode digit as taken by Python int(), or
`none` for a non-digit. -/
def pyDigit (c : Char) : Option Nat :=
  (ndBases.find? (fun b => b ≤ c.toNat && c.toNat < b + 10)).map
    (fun b => c.toNat - b)

/-- Is the character a Unicode decimal digit. -/
def isPyDigit (c : Char) : Bool :=
  (pyDigit c).isSome

/-- After a first digit, Python int() accepts further digits with single
underscores strictly between digits. -/
def digitsTail : List Char → Bool
  | [] => true
  | ['_'] => false
  | '_' :: '_' :: _ => false
  | '_' :: c :: rest => isPyDigit c && digitsTail rest
  | c :: rest => isPyDigit c && digitsTail rest

/-- A valid unsigned digit group for Python int(): non-empty, starts with a
digit, underscores only between digits. -/
def digitsOk : List Char → Bool
  | [] => false
  | c :: rest => isPyDigit c && digitsTail rest

/-- Numeric value of a digit group, skipping underscores. -/
def digitsVal (cs : List Char) : Nat :=
  cs.foldl (fun acc c => if c = '_' then acc else acc * 10 + (pyDigit c).getD 0) 0

/-- Python int(s) on a string: optional surrounding Unicode whitespace,
optional ASCII sign, then a group of Unicode decimal digits; `none` is the
ValueError case. -/
def pyIntOfString (s : String) : Option Int :=
  match trimWs s.toList with
  | '+' :: rest => if digitsOk rest then some ((digitsVal rest : Nat) : Int) else none
  | '-' :: rest => if digitsOk rest then some (-((digitsVal rest : Nat) : Int)) else none
  | cs => if digitsOk cs then some ((digitsVal cs : Nat) : Int) else none

/-- The exception classes int() can raise here, with str(e); the class
matters because the except clause at line 166 names ValueError and
TypeError but not OverflowError. -/
inductive PyErr where
  | valueError : String → PyErr
  | typeError : String → PyErr
  | overflowError : String → PyErr

/-- Python int(v) on the values a JSON body can hold: ints pass through,
bools coerce to 0 or 1, finite floats truncate toward zero, an infinite
float raises OverflowError, NaN raises ValueError, strings parse or raise
ValueError, None, lists and dicts raise TypeError. -/
def pyToInt : JVal → Except PyErr Int
  | .jbool b => .ok (if b then 1 else 0)
  | .jint n => .ok n
  | .jfloat .zero => .ok 0
  | .jfloat (.nonzero t) => .ok t
  | .jfloat .inf => .error (.overflowError "cannot convert float infinity to integer")
  | .jfloat .nan => .error (.valueError "cannot convert float NaN to integer")
  | .jstr s =>
    match pyIntOfString s with
    | some n => .ok n
    | none => .error (.valueError "invalid literal for int with base 10")
  | .jnull => .error (.typeError "int argument must not be NoneType")
  | .jarr _ => .error (.typeError "int argument must not be list")
  | .jobj _ => .error (.typeError "int argument must not be dict")

/-- Lines 164-167: top_k = int(top_k) if top_k is not None else 5.  The
except clause catches ValueError and TypeError and replaces them by 5; an
OverflowError — int() of an infinite float — is not caught and escapes as
an uncaught exception to the outer handler. -/
def coerceTopK (v : JVal) : Except String Int :=
  match v with
  | .jnull => .ok 5
  | v =>
    match pyToInt v with
    | .ok n => .ok n
    | .error (.valueError _) => .ok 5
    | .error (.typeError _) => .ok 5
    | .error (.overflowError m) => .error m

/-- Lift req.params.get, which yields a string or None, into JVal. -/
def optStrToJVal : Option String → JVal
  | none => .jnull
  | some s => .jstr s

/-- Lines 146-155: extract the raw query and top_k.  GET reads the URL
parameters; POST reads the JSON body, an unparsable body standing in for the
empty object, and body.get raising (AttributeError) when the body parsed to
a non-object. -/
def extractQT (req : HttpRequest) : Except String (JVal × JVal) :=
  match req.method with
  | .get =>
    .ok (optStrToJVal (getParam req.params "query"),
         optStrToJVal (getParam req.params "top_k"))
  | .post =>
    match req.body with
    | none => .ok (.jnull, .jnull)
    | some b =>
      match jvalGet b "query" with
      | .error e => .error e
      | .ok q =>
        match jvalGet b "top_k" with
        | .error e => .error e
        | .ok t => .ok (q, t)

/-- Lines 39-67: search_tfidf.  Transform the query into a sparse vector,
then search the collection with limit top_k; any error from either step
propagates unmodified. -/
def search_tfidf
    (dbSearch : String → SparseVector → Int → Except String (List SearchResult))
    (collection_name : String) (query : JVal)
    (transform : JVal → Except String SparseVector) (top_k : Int) :
    Except String (List SearchResult) :=
  match transform query with
  | .error e => .error e
  | .ok sparse => dbSearch collection_name sparse top_k

/-- A JSON body holding only an error message, as built at lines 141, 159
and 205. -/
def jsonError (msg : String) : JVal :=
  .jobj [("error", .jstr msg)]

/-- The line 141 message. -/
def vectorizerNotLoadedMsg : String :=
  "Vectorizer not loaded. Check VECTORIZER_PATH and deployment files."

/-- The line 159 message. -/
def missingQueryMsg : String :=
  "Missing \x27query\x27 parameter"

/-- Lines 180-186: reshape one hit into an id/score/payload record. -/
def resultToJson (r : SearchResult) : JVal :=
  .jobj [("id", r.id), ("score", r.score), ("payload", r.payload)]

/-- Lines 188-199: the success body echoing query and top_k with the
reshaped results. -/
def searchOkBody (query : JVal) (top_k : Int) (results : List SearchResult) : JVal :=
  .jobj [("query", query), ("top_k", .jint top_k),
         ("results", .jarr (List.map resultToJson results))]

/-- Lines 139-199: the body of the try block of the /search handler.  An
`.error` is an uncaught Python exception escaping to the outer except —
from extraction, from the top_k coercion (only OverflowError survives the
line 166 catch), or from the search call. -/
def tfidf_search_body (env : Env) (req : HttpRequest) : Except String HttpResponse :=
  match env.vectorizer with
  | none => .ok ⟨500, jsonError vectorizerNotLoadedMsg⟩
  | some transform =>
    match extractQT req with
    | .error e => .error e
    | .ok (query, top_k_raw) =>
      if truthy query = false then
        .ok ⟨400, jsonError missingQueryMsg⟩
      else
        match coerceTopK top_k_raw with
        | .error e => .error e
        | .ok top_k =>
          match search_tfidf env.dbSearch env.collection query transform
              top_k with
          | .error e => .error e
          | .ok results =>
            .ok ⟨200, searchOkBody query top_k results⟩

/-- Lines 132-208: the /search handler, the outer except turning any escaped
exception into a 500 response carrying str(e). -/
def tfidf_search (env : Env) (req : HttpRequest) : HttpResponse :=
  match tfidf_search_body env req with
  | .ok r => r
  | .error e => ⟨500, jsonError e⟩

/-- Lines 99-123: the /health handler.  Always a 200; the qdrant field is
connected on a successful get_collections and an error string otherwise. -/
def detailed_health (env : Env) : HttpResponse :=
  let qdrant_status : String :=
    match env.getCollections with
    | .ok _ => "connected"
    | .error e => "error: " ++ e
  ⟨200, .jobj [("status", .jstr "ok"),
               ("qdrant", .jstr qdrant_status),
               ("qdrant_url", .jstr env.qdrantUrl),
               ("collection", .jstr env.collection),
               ("vectorizer_loaded", .jbool env.vectorizer.isSome)]⟩

/-- Lines 81-94: the root liveness handler, a constant response. -/
def root_health : HttpResponse :=
  ⟨200, .jobj [("status", .jstr "ok"),
               ("service", .jstr "sauco-tfidf-function"),
               ("message", .jstr "Azure Function is running")]⟩

/-- Field lookup in a JSON-object response body, for stating properties
about individual response fields. -/
def bodyField (r : HttpResponse) (key : String) : Option JVal :=
  match r.body with
  | .jobj kvs => List.lookup key kvs
  | _ => none

/-- Does the pattern occur at the head of the character list. -/
def charsStartWith : List Char → List Char → Bool
  | _, [] => true
  | [], _ :: _ => false
  | c :: cs, d :: ds => (c = d) && charsStartWith cs ds

/-- Does the pattern occur anywhere in the character list. -/
def charsContain : List Char → List Char → Bool
  | [], sub => sub.isEmpty
  | c :: cs, sub => charsStartWith (c :: cs) sub || charsContain cs sub

/-- Substring test on strings, for stating that an error message mentions a
given word. -/
def strContains (s sub : String) : Bool :=
  charsContain s.toList sub.toList

/-! Concrete environments and requests used to instantiate the theorems. -/

/-- A vectorizer whose transform always succeeds with the empty sparse
vector. -/
def trivialTransform : JVal → Except String SparseVector :=
  fun _ => .ok ⟨[], []⟩

/-- A database call that always raises, modelling an unreachable backend. -/
def failDb : String → SparseVector → Int → Except String (List SearchResult) :=
  fun _ _ _ => .error "connection refused"

/-- A database call that honors the limit contract: it returns no hits when
the limit is non-negative and raises on a negative limit. -/
def limitDb : String → SparseVector → Int → Except String (List SearchResult) :=
  fun _ _ k => if 0 ≤ k then .ok [] else .error "limit must be non-negative"

/-- A healthy environment: vectorizer loaded, database reachable. -/
def envOk : Env :=
  ⟨some trivialTransform, limitDb, "code_knowledge", "http://127.0.0.1:6333", .ok ()⟩

/-- Vectorizer loaded but the database raises on every call. -/
def envDbDown : Env :=
  ⟨some trivialTransform, failDb, "code_knowledge", "http://127.0.0.1:6333",
   .error "timed out"⟩

/-- The vectorizer failed to load at startup. -/
def envNoVec : Env :=
  ⟨none, limitDb, "code_knowledge", "http://127.0.0.1:6333", .ok ()⟩

/-- A GET request to /search carrying the given URL parameters. -/
def getReq (ps : List (String × String)) : HttpRequest :=
  ⟨.get, ps, none⟩

/-! Sanity checks of the embedding on concrete inputs. -/

example : pyIntOfString "abc" = none := by decide
example : pyIntOfString " -12 " = some (-12) := by decide
example : pyIntOfString "1_0" = some 10 := by decide
example : pyIntOfString "1__0" = none := by decide
example : pyIntOfString "١٢" = some 12 := by decide
example : pyIntOfString " +12　" = some 12 := by decide
example : coerceTopK (.jstr "abc") = .ok 5 := rfl
example : coerceTopK .jnull = .ok 5 := rfl
example : coerceTopK (.jstr "0") = .ok 0 := rfl
example : coerceTopK (.jbool true) = .ok 1 := rfl
example : coerceTopK (.jstr "١٢") = .ok 12 := rfl
example : coerceTopK (.jfloat (.nonzero 12)) = .ok 12 := rfl
example : coerceTopK (.jfloat .nan) = .ok 5 := rfl
example : coerceTopK (.jfloat .inf) =
    .error "cannot convert float infinity to integer" := rfl
example : tfidf_search envOk ⟨.post, [], some (.jobj
    [("query", .jstr "x"), ("top_k", .jfloat .inf)])⟩ =
    ⟨500, jsonError "cannot convert float infinity to integer"⟩ := rfl
example : tfidf_search envNoVec (getReq [("query", "foo")]) =
    ⟨500, jsonError vectorizerNotLoadedMsg⟩ := rfl
example : tfidf_search envOk (getReq [("query", "foo")]) =
    ⟨200, searchOkBody (.jstr "foo") 5 []⟩ := rfl
example : tfidf_search envOk (getReq []) =
    ⟨400, jsonError missingQueryMsg⟩ := rfl
example : tfidf_search envDbDown (getReq [("query", "foo")]) =
    ⟨500, jsonError "connection refused"⟩ := rfl
example : tfidf_search envOk ⟨.post, [("query", "foo")], none⟩ =
    ⟨400, jsonError missingQueryMsg⟩ := rfl
example : tfidf_search envOk ⟨.post, [], some (.jobj [("query", .jint 0)])⟩ =
    ⟨400, jsonError missingQueryMsg⟩ := rfl
example : tfidf_search envOk ⟨.post, [], some (.jarr [])⟩ =
    ⟨500, jsonError "AttributeError: object has no attribute get"⟩ := rfl
example : detailed_health envDbDown = ⟨200, .jobj
    [("status", .jstr "ok"), ("qdrant", .jstr "error: timed out"),
     ("qdrant_url", .jstr "http://127.0.0.1:6333"),
     ("collection", .jstr "code_knowledge"),
     ("vectorizer_loaded", .jbool true)]⟩ := rfl
example : strContains vectorizerNotLoadedMsg "Vectorizer" = true := by decide

/-! Shared helper lemmas. -/

/-- The try block of the /search handler, once the vectorizer is loaded and
the raw query and top_k have been extracted: truthiness check on the query,
then the search call with the coerced top_k, errors propagating. -/
theorem tfidf_search_body_eq (env : Env)
    (transform : JVal → Except String SparseVector) (req : HttpRequest)
    (q tk : JVal)
    (hv : env.vectorizer = some transform)
    (hx : extractQT req = .ok (q, tk)) :
    tfidf_search_body env req =
      if truthy q = false then .ok ⟨400, jsonError missingQueryMsg⟩
      else
        match coerceTopK tk with
        | .error e => .error e
        | .ok k =>
          match search_tfidf env.dbSearch env.collection q transform k with
          | .error e => .error e
          | .ok results => .ok ⟨200, searchOkBody q k results⟩ := by
  unfold tfidf_search_body
  rw [hv, hx]

/-- The outer except of the handler commutes with the match on the search
outcome: unwrapping an ok response and turning an error into a 500. -/
theorem unwrap_search_match (S : Except String (List SearchResult))
    (q : JVal) (k : Int) :
    (match (match S with
            | .error e => .error e
            | .ok results =>
              .ok (⟨200, searchOkBody q k results⟩ : HttpResponse) :
            Except String HttpResponse) with
     | .ok r => r
     | .error e => (⟨500, jsonError e⟩ : HttpResponse)) =
    (match S with
     | .error e => (⟨500, jsonError e⟩ : HttpResponse)
     | .ok results => ⟨200, searchOkBody q k results⟩) := by
  cases S <;> rfl

/-- The /search handler, once the vectorizer is loaded and extraction
succeeded: reject a falsy query with a 400, otherwise run the search with
the coerced top_k, the outer except turning an error into a 500. -/
theorem tfidf_search_eq (env : Env)
    (transform : JVal → Except String SparseVector) (req : HttpRequest)
    (q tk : JVal)
    (hv : env.vectorizer = some transform)
    (hx : extractQT req = .ok (q, tk)) :
    tfidf_search env req =
      if truthy q = false then ⟨400, jsonError missingQueryMsg⟩
      else
        match coerceTopK tk with
        | .error e => ⟨500, jsonError e⟩
        | .ok k =>
          match search_tfidf env.dbSearch env.collection q transform k with
          | .error e => ⟨500, jsonError e⟩
          | .ok results => ⟨200, searchOkBody q k results⟩ := by
  unfold tfidf_search
  rw [tfidf_search_body_eq env transform req q tk hv hx]
  by_cases h : truthy q = false
  · rw [if_pos h, if_pos h]
  · rw [if_neg h, if_neg h]
    cases hc : coerceTopK tk with
    | error e => rfl
    | ok k =>
      exact unwrap_search_match
        (search_tfidf env.dbSearch env.collection q transform k) q k

/-- The /search handler on the full success path of query extraction and
top_k coercion: the search runs with the coerced limit k. -/
theorem tfidf_search_eq_ok (env : Env)
    (transform : JVal → Except String SparseVector) (req : HttpRequest)
    (q tk : JVal) (k : Int)
    (hv : env.vectorizer = some transform)
    (hx : extractQT req = .ok (q, tk))
    (hq : truthy q = true)
    (hc : coerceTopK tk = .ok k) :
    tfidf_search env req =
      match search_tfidf env.dbSearch env.collection q transform k with
      | .error e => ⟨500, jsonError e⟩
      | .ok results => ⟨200, searchOkBody q k results⟩ := by
  have h := tfidf_search_eq env transform req q tk hv hx
  rw [hq, hc] at h
  rw [h]
  rfl

/-- The coercion of a string top_k is the Python int parse when it succeeds
and the default 5 when it fails. -/
theorem coerceTopK_jstr (s : String) :
    coerceTopK (.jstr s) =
      .ok (match pyIntOfString s with
           | some n => n
           | none => 5) := by
  cases h : pyIntOfString s with
  | some n => simp [coerceTopK, pyToInt, h]
  | none => simp [coerceTopK, pyToInt, h]

/-- The limit-honoring model database never returns more hits than the
requested limit. -/
theorem limitDb_le (c : String) (v : SparseVector) (k : Int)
    (rs : List SearchResult) (h : limitDb c v k = .ok rs) :
    (rs.length : Int) ≤ k := by
  unfold limitDb at h
  by_cases hk : (0 : Int) ≤ k
  · rw [if_pos hk] at h
    injection h with h2
    subst h2
    simpa using hk
  · rw [if_neg hk] at h
    exact Except.noConfusion h

/-! Claim theorems. -/

/-- C2: when the startup vectorizer is null, every call to /search — any
method, parameters and body — returns HTTP 500 with a body whose error
field mentions the vectorizer. -/
theorem C2_no_vectorizer_500 (env : Env) (req : HttpRequest)
    (hv : env.vectorizer = none) :
    tfidf_search env req = ⟨500, jsonError vectorizerNotLoadedMsg⟩ ∧
    bodyField (tfidf_search env req) "error" =
      some (.jstr vectorizerNotLoadedMsg) ∧
    strContains vectorizerNotLoadedMsg "Vectorizer" = true := by
  have h : tfidf_search env req = ⟨500, jsonError vectorizerNotLoadedMsg⟩ := by
    unfold tfidf_search tfidf_search_body
    rw [hv]
  refine ⟨h, ?_, by decide⟩
  rw [h]
  rfl

/-- Witness for C2 at a concrete environment and request. -/
theorem C2_no_vectorizer_500_witness :
    tfidf_search envNoVec (getReq [("query", "foo"), ("top_k", "3")]) =
      ⟨500, jsonError vectorizerNotLoadedMsg⟩ ∧
    bodyField (tfidf_search envNoVec (getReq [("query", "foo"), ("top_k", "3")]))
      "error" = some (.jstr vectorizerNotLoadedMsg) ∧
    strContains vectorizerNotLoadedMsg "Vectorizer" = true :=
  C2_no_vectorizer_500 envNoVec (getReq [("query", "foo"), ("top_k", "3")]) rfl

/-- C3: any GET or POST /search request whose extracted query is absent or
empty receives HTTP 400 with an error field; the vectorizer-loaded
hypothesis reflects the line 139 guard, which takes precedence in the
degraded state covered by C2. -/
theorem C3_missing_query_400 (env : Env)
    (transform : JVal → Except String SparseVector) (req : HttpRequest)
    (q tk : JVal)
    (hv : env.vectorizer = some transform)
    (hx : extractQT req = .ok (q, tk))
    (hq : q = .jnull ∨ q = .jstr "") :
    tfidf_search env req = ⟨400, jsonError missingQueryMsg⟩ ∧
    bodyField (tfidf_search env req) "error" = some (.jstr missingQueryMsg) := by
  have ht : truthy q = false := by
    rcases hq with h | h <;> subst h <;> rfl
  have h := tfidf_search_eq env transform req q tk hv hx
  rw [ht] at h
  exact ⟨by rw [h]; rfl, by rw [h]; rfl⟩

/-- Witness for C3: a GET with the query parameter absent and a POST with
the query mapped to the empty string. -/
theorem C3_missing_query_400_witness :
    (tfidf_search envOk (getReq [("top_k", "3")]) =
        ⟨400, jsonError missingQueryMsg⟩ ∧
      bodyField (tfidf_search envOk (getReq [("top_k", "3")])) "error" =
        some (.jstr missingQueryMsg)) ∧
    (tfidf_search envOk ⟨.post, [], some (.jobj [("query", .jstr "")])⟩ =
        ⟨400, jsonError missingQueryMsg⟩ ∧
      bodyField (tfidf_search envOk ⟨.post, [], some (.jobj [("query", .jstr "")])⟩)
        "error" = some (.jstr missingQueryMsg)) :=
  ⟨C3_missing_query_400 envOk trivialTransform (getReq [("top_k", "3")])
      .jnull (.jstr "3") rfl (by rfl) (Or.inl rfl),
   C3_missing_query_400 envOk trivialTransform
      ⟨.post, [], some (.jobj [("query", .jstr "")])⟩
      (.jstr "") .jnull rfl (by rfl) (Or.inr rfl)⟩

/-- C8: a POST whose body is not valid JSON is treated as the empty object,
so with the vectorizer loaded the handler answers the missing-query 400 —
whatever the URL parameters carry, since body parsing takes precedence —
rather than raising a parse error. -/
theorem C8_invalid_json_400 (env : Env)
    (transform : JVal → Except String SparseVector)
    (ps : List (String × String))
    (hv : env.vectorizer = some transform) :
    tfidf_search env ⟨.post, ps, none⟩ = ⟨400, jsonError missingQueryMsg⟩ ∧
    bodyField (tfidf_search env ⟨.post, ps, none⟩) "error" =
      some (.jstr missingQueryMsg) := by
  have hx : extractQT ⟨.post, ps, none⟩ = .ok (.jnull, .jnull) := rfl
  have h := tfidf_search_eq env transform ⟨.post, ps, none⟩ .jnull .jnull hv hx
  exact ⟨by rw [h]; rfl, by rw [h]; rfl⟩

/-- Witness for C8: a POST with an unparsable body and a query URL
parameter that is ignored. -/
theorem C8_invalid_json_400_witness :
    tfidf_search envOk ⟨.post, [("query", "foo")], none⟩ =
      ⟨400, jsonError missingQueryMsg⟩ ∧
    bodyField (tfidf_search envOk ⟨.post, [("query", "foo")], none⟩) "error" =
      some (.jstr missingQueryMsg) :=
  C8_invalid_json_400 envOk trivialTransform [("query", "foo")] rfl

/-- C10: a POST whose JSON object body maps query to a falsy value — 0,
false, null, the empty string or an empty list, present or not — receives
the missing-query 400: the check at line 157 tests Python truthiness, not
key presence or string type. -/
theorem C10_falsy_query_400 (env : Env)
    (transform : JVal → Except String SparseVector)
    (ps : List (String × String)) (kvs : List (String × JVal)) (q : JVal)
    (hv : env.vectorizer = some transform)
    (hk : (List.lookup "query" kvs).getD .jnull = q)
    (hq : truthy q = false) :
    tfidf_search env ⟨.post, ps, some (.jobj kvs)⟩ =
      ⟨400, jsonError missingQueryMsg⟩ ∧
    bodyField (tfidf_search env ⟨.post, ps, some (.jobj kvs)⟩) "error" =
      some (.jstr missingQueryMsg) := by
  have hx : extractQT ⟨.post, ps, some (.jobj kvs)⟩ =
      .ok ((List.lookup "query" kvs).getD .jnull,
           (List.lookup "top_k" kvs).getD .jnull) := rfl
  rw [hk] at hx
  have h := tfidf_search_eq env transform ⟨.post, ps, some (.jobj kvs)⟩ q
    ((List.lookup "top_k" kvs).getD .jnull) hv hx
  rw [hq] at h
  exact ⟨by rw [h]; rfl, by rw [h]; rfl⟩

/-- Witness for C10: the body maps query to the falsy integer 0, which is
present and not a string. -/
theorem C10_falsy_query_400_witness :
    tfidf_search envOk ⟨.post, [], some (.jobj [("query", .jint 0)])⟩ =
      ⟨400, jsonError missingQueryMsg⟩ ∧
    bodyField (tfidf_search envOk ⟨.post, [], some (.jobj [("query", .jint 0)])⟩)
      "error" = some (.jstr missingQueryMsg) :=
  C10_falsy_query_400 envOk trivialTransform [] [("query", .jint 0)] (.jint 0)
    rfl rfl rfl

/-- C1 as stated is false: there is a database state — one where the search
call raises — under which a non-empty query receives HTTP 500, not 200. -/
theorem C1_counterexample :
    tfidf_search envDbDown (getReq [("query", "foo")]) =
      ⟨500, jsonError "connection refused"⟩ ∧
    (tfidf_search envDbDown (getReq [("query", "foo")])).status ≠ 200 :=
  ⟨rfl, by decide⟩

/-- C1 (amended): when the vectorizer is loaded, the extracted query is a
non-empty string, the search call succeeds, and the database never returns
more hits than the requested limit, /search returns HTTP 200 and its
results array has length at most the effective top_k. -/
theorem C1_results_bounded (env : Env)
    (transform : JVal → Except String SparseVector) (req : HttpRequest)
    (s : String) (tk : JVal) (k : Int) (rs : List SearchResult)
    (hv : env.vectorizer = some transform)
    (hx : extractQT req = .ok (.jstr s, tk))
    (hs : s ≠ "")
    (hc : coerceTopK tk = .ok k)
    (hlim : ∀ v k2 rs2, env.dbSearch env.collection v k2 = .ok rs2 →
      (rs2.length : Int) ≤ k2)
    (hsearch : search_tfidf env.dbSearch env.collection (.jstr s) transform
      k = .ok rs) :
    tfidf_search env req = ⟨200, searchOkBody (.jstr s) k rs⟩ ∧
    bodyField (tfidf_search env req) "results" =
      some (.jarr (List.map resultToJson rs)) ∧
    ((List.map resultToJson rs).length : Int) ≤ k := by
  have ht : truthy (.jstr s) = true := by
    show (s != "") = true
    simpa using hs
  have h := tfidf_search_eq_ok env transform req (.jstr s) tk k hv hx ht hc
  rw [hsearch] at h
  have hlen : (rs.length : Int) ≤ k := by
    unfold search_tfidf at hsearch
    cases hT : transform (.jstr s) with
    | error e => rw [hT] at hsearch; exact Except.noConfusion hsearch
    | ok v => rw [hT] at hsearch; exact hlim v k rs hsearch
  exact ⟨by rw [h], by rw [h]; rfl, by simpa using hlen⟩

/-- Witness for the amended C1 at a concrete environment whose database
honors the limit contract. -/
theorem C1_results_bounded_witness :
    tfidf_search envOk (getReq [("query", "foo")]) =
      ⟨200, searchOkBody (.jstr "foo") 5 []⟩ ∧
    bodyField (tfidf_search envOk (getReq [("query", "foo")])) "results" =
      some (.jarr (List.map resultToJson [])) ∧
    ((List.map resultToJson ([] : List SearchResult)).length : Int) ≤ 5 :=
  C1_results_bounded envOk trivialTransform (getReq [("query", "foo")])
    "foo" .jnull 5 [] rfl (by rfl) (by decide) (by rfl)
    (fun v k2 rs2 h => limitDb_le "code_knowledge" v k2 rs2 h) (by rfl)

/-- C4 as stated is false: the coercion of top_k can raise.  A POST body
mapping top_k to the float inf — json.loads of the valid JSON literal
1e400 — reaches int() at line 165, which raises OverflowError; the except
clause at line 166 names only ValueError and TypeError, so the exception
escapes to the outer handler and the request answers 500, unlike the same
request with top_k omitted, which searches with the default 5. -/
theorem C4_counterexample :
    coerceTopK (.jfloat .inf) =
      .error "cannot convert float infinity to integer" ∧
    tfidf_search envOk ⟨.post, [], some (.jobj
        [("query", .jstr "x"), ("top_k", .jfloat .inf)])⟩ =
      ⟨500, jsonError "cannot convert float infinity to integer"⟩ ∧
    tfidf_search envOk ⟨.post, [], some (.jobj [("query", .jstr "x")])⟩ =
      ⟨200, searchOkBody (.jstr "x") 5 []⟩ ∧
    (500 : Nat) ≠ 200 :=
  ⟨rfl, rfl, rfl, by decide⟩

/-- C4 (amended): the top_k coercion raises only on an infinite float —
every other input, in particular any absent or unparsable value, coerces
without raising, absent and unparsable-string top_k default to 5, and a
GET request with an unparsable top_k string behaves identically, for every
environment, to the same request with top_k omitted. -/
theorem C4_topk_default (env : Env) (q tk : String)
    (hbad : pyIntOfString tk = none) :
    tfidf_search env (getReq [("query", q), ("top_k", tk)]) =
      tfidf_search env (getReq [("query", q)]) ∧
    coerceTopK (.jstr tk) = .ok 5 ∧
    coerceTopK .jnull = .ok 5 ∧
    (∀ v m, coerceTopK v = .error m → v = .jfloat .inf) := by
  have h5 : coerceTopK (.jstr tk) = .ok 5 := by
    rw [coerceTopK_jstr, hbad]
  refine ⟨?_, h5, rfl, ?_⟩
  · cases hv : env.vectorizer with
    | none =>
      unfold tfidf_search tfidf_search_body
      rw [hv]
    | some transform =>
      have hx1 : extractQT (getReq [("query", q), ("top_k", tk)]) =
          .ok (.jstr q, .jstr tk) := by rfl
      have hx2 : extractQT (getReq [("query", q)]) =
          .ok (.jstr q, .jnull) := by rfl
      rw [tfidf_search_eq env transform _ _ _ hv hx1,
          tfidf_search_eq env transform _ _ _ hv hx2, h5,
          show coerceTopK .jnull = .ok 5 from rfl]
  · intro v m hm
    cases v with
    | jnull => exact Except.noConfusion hm
    | jbool b => exact Except.noConfusion hm
    | jint n => exact Except.noConfusion hm
    | jstr s =>
      rw [coerceTopK_jstr] at hm
      exact Except.noConfusion hm
    | jarr xs => exact Except.noConfusion hm
    | jobj kvs => exact Except.noConfusion hm
    | jfloat f =>
      cases f with
      | zero => exact Except.noConfusion hm
      | nonzero t => exact Except.noConfusion hm
      | inf => rfl
      | nan => exact Except.noConfusion hm

/-- Witness for the amended C4 at the spec example top_k=abc. -/
theorem C4_topk_default_witness :
    tfidf_search envOk (getReq [("query", "foo"), ("top_k", "abc")]) =
      tfidf_search envOk (getReq [("query", "foo")]) ∧
    coerceTopK (.jstr "abc") = .ok 5 ∧
    coerceTopK .jnull = .ok 5 :=
  ⟨(C4_topk_default envOk "foo" "abc" (by decide)).1,
   (C4_topk_default envOk "foo" "abc" (by decide)).2.1,
   (C4_topk_default envOk "foo" "abc" (by decide)).2.2.1⟩

/-- C5 as stated is false: top_k=0 parses, so the search call receives the
effective top_k 0, which is neither positive nor the default 5 — the
successful response echoes it. -/
theorem C5_counterexample :
    tfidf_search envOk (getReq [("query", "foo"), ("top_k", "0")]) =
      ⟨200, searchOkBody (.jstr "foo") 0 []⟩ ∧
    coerceTopK (.jstr "0") = .ok 0 ∧
    ¬ (0 : Int) > 0 :=
  ⟨rfl, rfl, by decide⟩

/-- C5 (amended): the search call runs with exactly the ok-value of
coerceTopK of the raw top_k — an integer, equal to 5 when the raw value is
absent or unparsable and to the Python int parse when it succeeds; it is
not necessarily positive. -/
theorem C5_effective_topk (env : Env)
    (transform : JVal → Except String SparseVector) (req : HttpRequest)
    (q tk : JVal)
    (hv : env.vectorizer = some transform)
    (hx : extractQT req = .ok (q, tk))
    (hq : truthy q = true) :
    tfidf_search env req =
      (match coerceTopK tk with
       | .error e => ⟨500, jsonError e⟩
       | .ok k =>
         match search_tfidf env.dbSearch env.collection q transform k with
         | .error e => ⟨500, jsonError e⟩
         | .ok results => ⟨200, searchOkBody q k results⟩) ∧
    coerceTopK .jnull = .ok 5 ∧
    (∀ s, pyIntOfString s = none → coerceTopK (.jstr s) = .ok 5) ∧
    (∀ s n, pyIntOfString s = some n → coerceTopK (.jstr s) = .ok n) := by
  refine ⟨?_, rfl, ?_, ?_⟩
  · have h := tfidf_search_eq env transform req q tk hv hx
    rw [hq] at h
    rw [h]
    rfl
  · intro s hn
    rw [coerceTopK_jstr, hn]
  · intro s n hn
    rw [coerceTopK_jstr, hn]

/-- Witness for the amended C5: a parsable top_k=0 flows through as 0 and
an unparsable one as 5. -/
theorem C5_effective_topk_witness :
    tfidf_search envOk (getReq [("query", "foo"), ("top_k", "0")]) =
      (match coerceTopK (.jstr "0") with
       | .error e => ⟨500, jsonError e⟩
       | .ok k =>
         match search_tfidf envOk.dbSearch envOk.collection (.jstr "foo")
            trivialTransform k with
         | .error e => ⟨500, jsonError e⟩
         | .ok results => ⟨200, searchOkBody (.jstr "foo") k results⟩) ∧
    coerceTopK (.jstr "abc") = .ok 5 ∧
    coerceTopK (.jstr "0") = .ok 0 :=
  ⟨(C5_effective_topk envOk trivialTransform
      (getReq [("query", "foo"), ("top_k", "0")])
      (.jstr "foo") (.jstr "0") rfl (by rfl) (by rfl)).1,
   (C5_effective_topk envOk trivialTransform
      (getReq [("query", "foo"), ("top_k", "0")])
      (.jstr "foo") (.jstr "0") rfl (by rfl) (by rfl)).2.2.1 "abc" (by decide),
   (C5_effective_topk envOk trivialTransform
      (getReq [("query", "foo"), ("top_k", "0")])
      (.jstr "foo") (.jstr "0") rfl (by rfl) (by rfl)).2.2.2 "0" 0 (by decide)⟩

/-- C6: /health always answers HTTP 200 and never raises; the qdrant field
is connected on a successful metadata call and an error string embedding
the exception text on failure, beside the configured URL, collection and
vectorizer-loaded flag. -/
theorem C6_health_always_200 (env : Env) :
    (detailed_health env).status = 200 ∧
    bodyField (detailed_health env) "qdrant_url" = some (.jstr env.qdrantUrl) ∧
    bodyField (detailed_health env) "collection" = some (.jstr env.collection) ∧
    bodyField (detailed_health env) "vectorizer_loaded" =
      some (.jbool env.vectorizer.isSome) ∧
    (env.getCollections = .ok () →
      bodyField (detailed_health env) "qdrant" = some (.jstr "connected")) ∧
    (∀ e, env.getCollections = .error e →
      bodyField (detailed_health env) "qdrant" =
        some (.jstr ("error: " ++ e))) := by
  cases hg : env.getCollections with
  | ok u =>
    cases u
    have hd : detailed_health env = ⟨200, .jobj
        [("status", .jstr "ok"), ("qdrant", .jstr "connected"),
         ("qdrant_url", .jstr env.qdrantUrl),
         ("collection", .jstr env.collection),
         ("vectorizer_loaded", .jbool env.vectorizer.isSome)]⟩ := by
      unfold detailed_health
      rw [hg]
    rw [hd]
    exact ⟨rfl, rfl, rfl, rfl, fun _ => rfl,
      fun e he => Except.noConfusion he⟩
  | error e0 =>
    have hd : detailed_health env = ⟨200, .jobj
        [("status", .jstr "ok"), ("qdrant", .jstr ("error: " ++ e0)),
         ("qdrant_url", .jstr env.qdrantUrl),
         ("collection", .jstr env.collection),
         ("vectorizer_loaded", .jbool env.vectorizer.isSome)]⟩ := by
      unfold detailed_health
      rw [hg]
    rw [hd]
    refine ⟨rfl, rfl, rfl, rfl,
      fun hc => Except.noConfusion hc,
      fun e he => ?_⟩
    injection he with h2
    rw [h2]
    rfl

/-- Witness for C6: both backend outcomes at concrete environments. -/
theorem C6_health_always_200_witness :
    (detailed_health envDbDown).status = 200 ∧
    bodyField (detailed_health envOk) "qdrant" = some (.jstr "connected") ∧
    bodyField (detailed_health envDbDown) "qdrant" =
      some (.jstr ("error: " ++ "timed out")) :=
  ⟨(C6_health_always_200 envDbDown).1,
   (C6_health_always_200 envOk).2.2.2.2.1 rfl,
   (C6_health_always_200 envDbDown).2.2.2.2.2 "timed out" rfl⟩

/-- C7: every successful /search response echoes in its body exactly the
query and the effective — possibly defaulted — top_k that were passed to
the search call. -/
theorem C7_echo_roundtrip (env : Env)
    (transform : JVal → Except String SparseVector) (req : HttpRequest)
    (q tk : JVal) (k : Int) (rs : List SearchResult)
    (hv : env.vectorizer = some transform)
    (hx : extractQT req = .ok (q, tk))
    (hq : truthy q = true)
    (hc : coerceTopK tk = .ok k)
    (hsearch : search_tfidf env.dbSearch env.collection q transform k =
      .ok rs) :
    (tfidf_search env req).status = 200 ∧
    bodyField (tfidf_search env req) "query" = some q ∧
    bodyField (tfidf_search env req) "top_k" = some (.jint k) := by
  have h := tfidf_search_eq_ok env transform req q tk k hv hx hq hc
  rw [hsearch] at h
  exact ⟨by rw [h], by rw [h]; rfl, by rw [h]; rfl⟩

/-- Witness for C7: the defaulted top_k 5 and the query are echoed. -/
theorem C7_echo_roundtrip_witness :
    (tfidf_search envOk (getReq [("query", "foo")])).status = 200 ∧
    bodyField (tfidf_search envOk (getReq [("query", "foo")])) "query" =
      some (.jstr "foo") ∧
    bodyField (tfidf_search envOk (getReq [("query", "foo")])) "top_k" =
      some (.jint 5) :=
  C7_echo_roundtrip envOk trivialTransform (getReq [("query", "foo")])
    (.jstr "foo") .jnull 5 [] rfl (by rfl) (by rfl) (by rfl) (by rfl)

/-- C9: an error raised by the transform step or by the database call
propagates out of search_tfidf unmodified — no retry, no partial results —
and when the search call errors the handler boundary responds 500 with the
exception text as the error field. -/
theorem C9_exception_to_500 (env : Env)
    (transform : JVal → Except String SparseVector) (req : HttpRequest)
    (q tk : JVal) (k : Int) (e : String)
    (hv : env.vectorizer = some transform)
    (hx : extractQT req = .ok (q, tk))
    (hq : truthy q = true)
    (hc : coerceTopK tk = .ok k) :
    (transform q = .error e →
      search_tfidf env.dbSearch env.collection q transform k = .error e) ∧
    (∀ v, transform q = .ok v →
      env.dbSearch env.collection v k = .error e →
      search_tfidf env.dbSearch env.collection q transform k = .error e) ∧
    (search_tfidf env.dbSearch env.collection q transform k = .error e →
      tfidf_search env req = ⟨500, jsonError e⟩ ∧
      bodyField (tfidf_search env req) "error" = some (.jstr e)) := by
  refine ⟨?_, ?_, ?_⟩
  · intro ht
    unfold search_tfidf
    rw [ht]
  · intro v ht hd
    unfold search_tfidf
    rw [ht]
    exact hd
  · intro hs
    have h := tfidf_search_eq_ok env transform req q tk k hv hx hq hc
    rw [hs] at h
    exact ⟨by rw [h], by rw [h]; rfl⟩

/-- Witness for C9: the database raises, search_tfidf forwards the error,
and the handler answers 500 with that text. -/
theorem C9_exception_to_500_witness :
    tfidf_search envDbDown (getReq [("query", "foo")]) =
      ⟨500, jsonError "connection refused"⟩ ∧
    bodyField (tfidf_search envDbDown (getReq [("query", "foo")])) "error" =
      some (.jstr "connection refused") :=
  (C9_exception_to_500 envDbDown trivialTransform (getReq [("query", "foo")])
    (.jstr "foo") .jnull 5 "connection refused" rfl (by rfl) (by rfl)
    (by rfl)).2.2 (by rfl)
